import Mathlib

/-!
Shallow embedding of `ossimShorelineUtil` (src/src/util/ossimShorelineUtil.cpp):
the shoreline classification utility that computes a spectral water index from
Landsat-8 bands, classifies it through an interpolated band-LUT into
land/marginal/water codes, optionally smooths and edge-filters the raster, and
finally hands the raster to the external `potrace` vectorization plugin.

Doubles are embedded as exact rationals (`ℚ`); `FLT_EPSILON` is the rational
value of the IEEE single-precision epsilon, `2 ^ (-23)`.
-/

namespace Shoreline

/-- The detection algorithm enum of `ossimShorelineUtil` (NDWI or AWEI). -/
inductive Algorithm where
  | NDWI
  | AWEI
deriving DecidableEq, Repr

/-- The per-algorithm required input count set in `initLandsat8`
(`reqdNumInputs`): 2 for NDWI, 4 for AWEI. -/
def requiredBandCount : Algorithm → Nat
  | Algorithm.NDWI => 2
  | Algorithm.AWEI => 4

/-- Denotation of the equation strings built in `initLandsat8` and handed to
the equation-combiner collaborator, with `in[i]` the i-th connected band:
NDWI is `in[0]/(in[0]+in[1])`, AWEI is
`4*(in[0]+in[1]) - 0.25*in[2] - 2.75*in[3]`. Missing bands read as 0. -/
def equationEval (alg : Algorithm) (bands : List ℚ) : ℚ :=
  match alg with
  | Algorithm.NDWI => bands.getD 0 0 / (bands.getD 0 0 + bands.getD 1 0)
  | Algorithm.AWEI =>
      4 * (bands.getD 0 0 + bands.getD 1 0) - 0.25 * bands.getD 2 0
        - 2.75 * bands.getD 3 0

/-- The member state of `ossimShorelineUtil` relevant to classification,
with the constructor defaults from the C++ initializer list. -/
structure ShorelineConfig where
  waterValue : Nat
  marginalValue : Nat
  landValue : Nat
  sensor : String
  threshold : ℚ
  tolerance : ℚ
  algorithm : Algorithm
  skipThreshold : Bool
  smoothing : ℚ
  doEdgeDetect : Bool
deriving DecidableEq, Repr

/-- The constructor defaults: water 255, marginal 128, land 0, sensor "ls8",
threshold 0.55, tolerance 0.01, NDWI, no skip, smoothing 0.2, no edge. -/
def defaultConfig : ShorelineConfig :=
  { waterValue := 255
    marginalValue := 128
    landValue := 0
    sensor := "ls8"
    threshold := 0.55
    tolerance := 0.01
    algorithm := Algorithm.NDWI
    skipThreshold := false
    smoothing := 0.2
    doEdgeDetect := false }

/-- `FLT_EPSILON`, the `del` increment of `initProcessingChain`, as an exact
rational: 2 ^ (-23). -/
def fltEpsilon : ℚ := 1 / 2 ^ 23

/-- The lookup-table entries assembled in `initProcessingChain` when
thresholding is not skipped: entry list of (in, out) pairs. With
`lo1 = threshold - tolerance`, `lo2 = lo1 + del`, `hi1 = threshold + tolerance`,
`hi2 = hi1 + del`, the table is
`[(0,land),(lo1,land),(lo2,water),(1,water)]` when `tolerance == 0`, else
`[(0,land),(lo1,land),(lo2,marginal),(hi1,marginal),(hi2,water),(1,water)]`. -/
def lutEntries (c : ShorelineConfig) : List (ℚ × ℚ) :=
  let del := fltEpsilon
  let land : ℚ := c.landValue
  let water : ℚ := c.waterValue
  let marginal : ℚ := c.marginalValue
  if c.tolerance = 0 then
    [(0, land), (c.threshold - c.tolerance, land),
     (c.threshold - c.tolerance + del, water), (1, water)]
  else
    [(0, land), (c.threshold - c.tolerance, land),
     (c.threshold - c.tolerance + del, marginal),
     (c.threshold + c.tolerance, marginal),
     (c.threshold + c.tolerance + del, water), (1, water)]

/-- Modelled from the spec: the evaluation of the band-LUT collaborator
(`ossimBandLutFilter`, not under src/) in its "interpolated" mode — a
"piecewise mapping ... with linear interpolation between listed control
points"; values at or below the first control point take its output, values
between consecutive control points interpolate linearly, values beyond the
last control point take its output. -/
def lutEval : List (ℚ × ℚ) → ℚ → ℚ
  | [], _ => 0
  | [(_, y)], _ => y
  | (x0, y0) :: (x1, y1) :: rest, v =>
      if v ≤ x0 then y0
      else if v ≤ x1 then
        y0 + (v - x0) / (x1 - x0) * (y1 - y0)
      else lutEval ((x1, y1) :: rest) v

/-- A stage of the processing chain assembled by `initProcessingChain` /
`initLandsat8` (equation combiner, band LUT, Gaussian smoother, Roberts edge
filter). -/
inductive Stage where
  | equationCombiner (alg : Algorithm)
  | bandLutFilter (entries : List (ℚ × ℚ))
  | gaussianFilter (sigma : ℚ)
  | edgeFilter
deriving DecidableEq, Repr

/-- `initLandsat8`: computes the required input count for the algorithm,
throws when fewer image layers are configured, and otherwise connects exactly
the first `reqdNumInputs` layers (the C++ loop `for i in [0, reqdNumInputs)`
pushes `m_imgLayers[i]`). Returns the connected layer list. -/
def initLandsat8 (alg : Algorithm) (imgLayers : List Nat) :
    Except String (List Nat) :=
  let reqd := requiredBandCount alg
  if imgLayers.length < reqd then
    Except.error ("Expected " ++ toString reqd ++ " input images but only found "
      ++ toString imgLayers.length ++ ".")
  else
    Except.ok (imgLayers.take reqd)

/-- `initProcessingChain`: throws on NaN AOI; dispatches on sensor (only
"ls8" supported) to `initLandsat8` which adds the equation combiner; then —
independently of each other — appends the threshold LUT unless
`m_skipThreshold`, the Gaussian smoother when `m_smoothing > 0`, and the
Roberts edge filter when `m_doEdgeDetect`. -/
def initProcessingChain (c : ShorelineConfig) (imgLayers : List Nat)
    (aoiHasNans : Bool) : Except String (List Stage) :=
  if aoiHasNans then
    Except.error "Encountered NaNs in AOI."
  else if c.sensor = "ls8" then
    match initLandsat8 c.algorithm imgLayers with
    | Except.error e => Except.error e
    | Except.ok _connected =>
        let chain := [Stage.equationCombiner c.algorithm]
        let chain := if !c.skipThreshold then
            chain ++ [Stage.bandLutFilter (lutEntries c)] else chain
        let chain := if c.smoothing > 0 then
            chain ++ [Stage.gaussianFilter c.smoothing] else chain
        let chain := if c.doEdgeDetect then
            chain ++ [Stage.edgeFilter] else chain
        Except.ok chain
  else
    Except.error ("Sensor <" ++ c.sensor ++ "> not supported")

/-- Whether a chain contains the three-way threshold LUT stage. -/
def hasThresholdStage (ch : List Stage) : Bool :=
  ch.any fun s => match s with
    | Stage.bandLutFilter _ => true
    | _ => false

/-- Whether a chain contains the edge filter stage. -/
def hasEdgeStage (ch : List Stage) : Bool :=
  ch.any fun s => match s with
    | Stage.edgeFilter => true
    | _ => false

/-- The value of the `threshold` keyword: the literal "X" selects skipping
the threshold operation, anything else is parsed as a double. -/
inductive ThresholdArg where
  | X
  | val (t : ℚ)
deriving DecidableEq, Repr

/-- The keyword-list entries read by the keyword-list overload of
`ossimShorelineUtil` initialization, already split from strings into their
parsed forms (string splitting and number parsing belong to the keyword-list
collaborator): `none` means the keyword is absent. -/
structure Options where
  algorithm : Option String
  colorCoding : Option (List Nat)
  sensorId : Option String
  doEdgeDetect : Option Bool
  smoothing : Option ℚ
  threshold : Option ThresholdArg
  tolerance : Option ℚ
deriving DecidableEq, Repr

/-- An option record with every keyword absent. -/
def noOptions : Options :=
  { algorithm := none, colorCoding := none, sensorId := none,
    doEdgeDetect := none, smoothing := none, threshold := none,
    tolerance := none }

/-- The keyword consumption part of the keyword-list overload of
`ossimShorelineUtil` initialization: it validates the algorithm name (throws
on anything but "ndwi"/"awei") and the color-coding arity (throws unless
exactly 3 values), and stores sensor, edge flag, smoothing, threshold (with
"X" meaning skip) and tolerance verbatim — the threshold and tolerance
values are not range-checked anywhere. -/
def loadConfig (c : ShorelineConfig) (opts : Options) :
    Except String ShorelineConfig := do
  let c ← match opts.algorithm with
    | none => Except.ok c
    | some a =>
        if a = "ndwi" then Except.ok { c with algorithm := Algorithm.NDWI }
        else if a = "awei" then Except.ok { c with algorithm := Algorithm.AWEI }
        else Except.error "Bad value encountered for keyword <algorithm>."
  let c ← match opts.colorCoding with
    | none => Except.ok c
    | some values =>
        if hv : values.length = 3 then
          Except.ok { c with
            waterValue := values.get ⟨0, by omega⟩,
            marginalValue := values.get ⟨1, by omega⟩,
            landValue := values.get ⟨2, by omega⟩ }
        else
          Except.error
            "Unexpected number of values encountered for keyword <color_coding>."
  let c := match opts.sensorId with
    | none => c
    | some s => { c with sensor := s }
  let c := match opts.doEdgeDetect with
    | none => c
    | some b => { c with doEdgeDetect := b }
  let c := match opts.smoothing with
    | none => c
    | some s => { c with smoothing := s }
  let c := match opts.threshold with
    | none => c
    | some ThresholdArg.X => { c with skipThreshold := true }
    | some (ThresholdArg.val t) => { c with threshold := t }
  let c := match opts.tolerance with
    | none => c
    | some t => { c with tolerance := t }
  Except.ok c

/-- `ossimShorelineUtil::execute()`, with the base-class raster generation
and the potrace registry lookup abstracted to their outcomes: `baseStatus`
is the result of `ossimChipProcUtil::execute()`, `potraceAvailable` whether
the registry yields the plugin, `potraceResult` what the plugin itself
returns from its own execute call. Returns (return value, warning issued).
In the C++, the plugin branch declares a NEW local `bool status` that
shadows the outer `status`, so the result of the plugin never reaches the
`return status`; when the plugin is missing the function warns and returns
false. -/
def shExecute (doEdgeDetect baseStatus potraceAvailable potraceResult : Bool) :
    Bool × Bool :=
  let status := baseStatus
  if !doEdgeDetect then
    if !potraceAvailable then
      (false, true)
    else
      let _statusInner := potraceResult
      (status, false)
  else
    (status, false)

/-- Integer pixel rectangle (`ossimIrect`), by its corner coordinates. -/
structure Irect where
  minX : Int
  minY : Int
  maxX : Int
  maxY : Int
deriving DecidableEq, Repr

/-- `ossimIrect::size()`: width and height, inclusive corners. -/
def Irect.size (r : Irect) : Int × Int :=
  (r.maxX - r.minX + 1, r.maxY - r.minY + 1)

/-- The mutable members of `ossimShorelineUtil` touched by `getChip`:
the image geometry (`m_geom`, `none` when invalid) and the AOI view and
ground rectangles it overwrites on every call. -/
structure ChipState (Geom Grect : Type) where
  geom : Option Geom
  aoiViewRect : Irect
  aoiGroundRect : Grect

/-- `ossimShorelineUtil::getChip(bounding_irect)`: returns null when the
geometry is invalid; otherwise overwrites `m_aoiViewRect` with the request,
sets the image size of the geometry to the size of the requested rect,
recomputes `m_aoiGroundRect` via `localToWorld`, and returns the tile the
chain produces for the view rect. The geometry operations (`setImageSize`,
`localToWorld`) and the chain evaluation are library collaborators passed as
functions; modelled from the spec: chain tile evaluation is a pure function
of the requested region and the immutable chain configuration. -/
def getChip {Geom Grect Tile : Type}
    (setImageSize : Geom → Int × Int → Geom)
    (localToWorld : Geom → Irect → Grect)
    (chainGetTile : Geom → Irect → Tile)
    (s : ChipState Geom Grect) (r : Irect) :
    ChipState Geom Grect × Option Tile :=
  match s.geom with
  | none => (s, none)
  | some g =>
      let g2 := setImageSize g (Irect.size r)
      let ground := localToWorld g2 r
      ({ geom := some g2, aoiViewRect := r, aoiGroundRect := ground },
       some (chainGetTile g2 r))

/-- Whether a construction step succeeded (no exception thrown). -/
def isOk {ε α : Type} : Except ε α → Bool
  | Except.ok _ => true
  | Except.error _ => false


/-! ## Theorems for the claims -/

/-- C2: for NDWI the index evaluator requires exactly 2 band inputs and
computes `b0 / (b0 + b1)` per pixel; for AWEI it requires exactly 4 band
inputs and computes `4*(b0+b1) - 0.25*b2 - 2.75*b3`. -/
theorem index_formulas :
    requiredBandCount Algorithm.NDWI = 2 ∧
    requiredBandCount Algorithm.AWEI = 4 ∧
    (∀ b0 b1 : ℚ, equationEval Algorithm.NDWI [b0, b1] = b0 / (b0 + b1)) ∧
    (∀ b0 b1 b2 b3 : ℚ, equationEval Algorithm.AWEI [b0, b1, b2, b3]
      = 4 * (b0 + b1) - 0.25 * b2 - 2.75 * b3) :=
  ⟨rfl, rfl, fun _ _ => rfl, fun _ _ _ _ => rfl⟩

/-- C9: when not in edge-detect mode and the potrace plugin is available,
execute returns exactly the base-class raster-generation status; the result
of the potrace execute call is bound to a shadowing local and never affects
the returned status (the whole outcome is independent of it). -/
theorem execute_ignores_potrace_result (base pr prOther : Bool) :
    (shExecute false base true pr).1 = base ∧
    shExecute false base true pr = shExecute false base true prOther :=
  ⟨rfl, rfl⟩

/-- C3 counterexample: with edge-detect off, a successful base raster run and
the potrace plugin unavailable, execute returns `false` — a failure result,
not the qualified success the claim asserts (a warning is surfaced, though). -/
theorem execute_potrace_missing_cex :
    shExecute false true false false = (false, true) := rfl

/-- C3 amended: when not in edge-detect mode and the vectorization plugin is
unavailable, a warning is surfaced and only then does execute return — but
the returned status is `false` (failure), regardless of the base status; the
classified raster file named in the warning is left in place, the function
merely reports failure. -/
theorem execute_potrace_missing_returns_false (base pr : Bool) :
    shExecute false base false pr = (false, true) := rfl

/-- C5 counterexample: loading a configuration with threshold 5 (outside
[0,1]) and tolerance -1 (negative) succeeds with no error; the values are
stored verbatim, contradicting the claimed InvalidConfiguration failure. -/
theorem load_accepts_out_of_range_cex :
    loadConfig defaultConfig
      { noOptions with threshold := some (ThresholdArg.val 5),
                       tolerance := some (-1) }
      = Except.ok { defaultConfig with threshold := 5, tolerance := -1 } := rfl

/-- C5 amended: configuration loading validates only the algorithm name and
the color-coding arity; threshold and tolerance are stored verbatim with no
range check, so any threshold (even outside [0,1]) and any tolerance (even
negative) are accepted without error. -/
theorem load_no_range_validation (t tol : ℚ) :
    loadConfig defaultConfig
      { noOptions with threshold := some (ThresholdArg.val t),
                       tolerance := some tol }
      = Except.ok { defaultConfig with threshold := t, tolerance := tol } := rfl

/-- C6: when fewer band sources are configured than the required band count
of the algorithm, pipeline construction fails (both the Landsat-8 stage
setup and the whole chain construction report an error before any tile
work); in particular AWEI with 2 bands fails. -/
theorem construction_insufficient_inputs (c : ShorelineConfig)
    (layers : List Nat)
    (h : layers.length < requiredBandCount c.algorithm) :
    isOk (initLandsat8 c.algorithm layers) = false ∧
    isOk (initProcessingChain c layers false) = false := by
  constructor
  · simp [initLandsat8, h, isOk]
  · unfold initProcessingChain
    by_cases hs : c.sensor = "ls8"
    · simp [hs, initLandsat8, h, isOk]
    · simp [hs, isOk]

/-- C6 witness: AWEI with only two configured band sources fails at
construction time. -/
theorem construction_insufficient_inputs_witness :
    isOk (initLandsat8 Algorithm.AWEI [0, 1]) = false ∧
    isOk (initProcessingChain
      { defaultConfig with algorithm := Algorithm.AWEI } [0, 1] false)
      = false :=
  construction_insufficient_inputs
    { defaultConfig with algorithm := Algorithm.AWEI } [0, 1] (by decide)

/-- C10: configuring more band sources than the required band count is
accepted: the Landsat-8 setup succeeds and connects exactly the first
`requiredBandCount` sources (the remainder are silently ignored), and the
whole chain construction succeeds. -/
theorem extra_inputs_accepted (c : ShorelineConfig) (layers : List Nat)
    (hsensor : c.sensor = "ls8")
    (h : requiredBandCount c.algorithm ≤ layers.length) :
    initLandsat8 c.algorithm layers
      = Except.ok (layers.take (requiredBandCount c.algorithm)) ∧
    isOk (initProcessingChain c layers false) = true := by
  have hnot : ¬ layers.length < requiredBandCount c.algorithm := not_lt.mpr h
  constructor
  · simp [initLandsat8, hnot]
  · unfold initProcessingChain
    simp [hsensor, initLandsat8, hnot, isOk]

/-- C10 witness: NDWI with three configured band sources succeeds and
connects exactly the first two. -/
theorem extra_inputs_accepted_witness :
    initLandsat8 Algorithm.NDWI [7, 8, 9] = Except.ok [7, 8] ∧
    isOk (initProcessingChain defaultConfig [7, 8, 9] false) = true :=
  extra_inputs_accepted defaultConfig [7, 8, 9] rfl (by decide)

/-- The default configuration with edge detection switched on. -/
def edgeConfig : ShorelineConfig := { defaultConfig with doEdgeDetect := true }

/-- The chain built for `edgeConfig` with two band sources. -/
def edgeChain : List Stage :=
  [Stage.equationCombiner Algorithm.NDWI,
   Stage.bandLutFilter (lutEntries edgeConfig),
   Stage.gaussianFilter 0.2,
   Stage.edgeFilter]

/-- C4 counterexample: with edge detection enabled and thresholding not
skipped (the defaults), the constructed processing chain contains BOTH the
three-way threshold LUT and the edge filter — the edge filter does not
replace the classification, contradicting the claim that they are never
composed. -/
theorem edge_composes_with_threshold_cex :
    Except.map (fun ch => hasThresholdStage ch && hasEdgeStage ch)
      (initProcessingChain edgeConfig [0, 1] false) = Except.ok true := by
  norm_num [initProcessingChain, initLandsat8, edgeConfig, defaultConfig,
    requiredBandCount, hasThresholdStage, hasEdgeStage, Except.map]

/-- C4 amended: when edge detection is enabled, the edge filter is appended
as the LAST stage of the chain, after (not instead of) the threshold
classifier: the chain contains the threshold LUT exactly when thresholding
is not skipped. Edge mode instead suppresses the vectorization step of
execute; it does not remove the classification stage. -/
theorem edge_filter_appended_last (c : ShorelineConfig) (layers : List Nat)
    (ch : List Stage) (hedge : c.doEdgeDetect = true)
    (hok : initProcessingChain c layers false = Except.ok ch) :
    ch.getLast? = some Stage.edgeFilter ∧
    hasThresholdStage ch = !c.skipThreshold := by
  unfold initProcessingChain at hok
  by_cases hs : c.sensor = "ls8"
  · rw [if_neg (by simp), if_pos hs] at hok
    cases hinit : initLandsat8 c.algorithm layers with
    | error e => rw [hinit] at hok; cases hok
    | ok conn =>
        rw [hinit] at hok
        simp only [hedge, if_true] at hok
        injection hok with hok
        subst hok
        by_cases hsk : c.skipThreshold <;> by_cases hsm : c.smoothing > 0 <;>
          simp [hsk, hsm, hasThresholdStage, List.getLast?_append]
  · rw [if_neg (by simp), if_neg hs] at hok
    cases hok

/-- C4 witness: the amended statement at the concrete edge configuration
with two band sources. -/
theorem edge_filter_appended_last_witness :
    edgeChain.getLast? = some Stage.edgeFilter ∧
    hasThresholdStage edgeChain = !edgeConfig.skipThreshold :=
  edge_filter_appended_last edgeConfig [0, 1] edgeChain rfl
    (by norm_num [initProcessingChain, initLandsat8, edgeConfig, defaultConfig,
      requiredBandCount, edgeChain])

/-- C8: the tile returned by getChip is a pure function of the requested
region and the immutable geometry/chain configuration. Provided the only
geometry mutation — overwriting the image size — is an overwrite (writing
twice keeps only the last write), (i) a getChip call made after any earlier
getChip call returns the same tile as from the original state (no hidden
cross-tile state: repeated and out-of-order requests agree), and (ii) two
states that agree on the geometry return the same tile for the same region
regardless of their AOI bookkeeping fields. -/
theorem getChip_pure {Geom Grect Tile : Type}
    (setImageSize : Geom → Int × Int → Geom)
    (localToWorld : Geom → Irect → Grect)
    (chainGetTile : Geom → Irect → Tile)
    (hsis : ∀ g a b, setImageSize (setImageSize g a) b = setImageSize g b)
    (s sOther : ChipState Geom Grect) (r rPrev : Irect)
    (hgeom : s.geom = sOther.geom) :
    (getChip setImageSize localToWorld chainGetTile
        (getChip setImageSize localToWorld chainGetTile s rPrev).1 r).2
      = (getChip setImageSize localToWorld chainGetTile s r).2 ∧
    (getChip setImageSize localToWorld chainGetTile s r).2
      = (getChip setImageSize localToWorld chainGetTile sOther r).2 := by
  constructor
  · cases hg : s.geom with
    | none => simp [getChip, hg]
    | some g => simp [getChip, hg, hsis]
  · cases hg : s.geom with
    | none =>
        have hg2 : sOther.geom = none := by rw [← hgeom, hg]
        simp [getChip, hg, hg2]
    | some g =>
        have hg2 : sOther.geom = some g := by rw [← hgeom, hg]
        simp [getChip, hg, hg2]

/-- A concrete chip state for the C8 witness. -/
def chipStateA : ChipState Nat Unit :=
  { geom := some 0, aoiViewRect := ⟨0, 0, 0, 0⟩, aoiGroundRect := () }

/-- A second chip state agreeing with `chipStateA` on the geometry but not
on the AOI bookkeeping fields. -/
def chipStateB : ChipState Nat Unit :=
  { geom := some 0, aoiViewRect := ⟨5, 5, 9, 9⟩, aoiGroundRect := () }

/-- C8 witness: the purity statement at concrete states, geometry operations
and regions. -/
theorem getChip_pure_witness :
    (getChip (fun g _ => g) (fun _ _ => ()) (fun g _ => g)
        (getChip (fun g _ => g) (fun _ _ => ()) (fun g _ => g)
          chipStateA ⟨2, 2, 3, 3⟩).1 ⟨0, 0, 1, 1⟩).2
      = (getChip (fun g _ => g) (fun _ _ => ()) (fun g _ => g)
          chipStateA ⟨0, 0, 1, 1⟩).2 ∧
    (getChip (fun g _ => g) (fun _ _ => ()) (fun g _ => g)
        chipStateA ⟨0, 0, 1, 1⟩).2
      = (getChip (fun g _ => g) (fun _ _ => ()) (fun g _ => g)
          chipStateB ⟨0, 0, 1, 1⟩).2 :=
  getChip_pure (fun g _ => g) (fun _ _ => ()) (fun g _ => g)
    (fun _ _ _ => rfl) chipStateA chipStateB ⟨0, 0, 1, 1⟩ ⟨2, 2, 3, 3⟩ rfl

/-- C1: when thresholding is not skipped, the chain contains the threshold
classifier built as an interpolated lookup table over the four breakpoints
`lo1 = threshold - tolerance`, `lo2 = lo1 + ε`, `hi1 = threshold + tolerance`,
`hi2 = hi1 + ε` with `ε = FLT_EPSILON`; under the spec presupposition that
the breakpoints are ordered (`threshold ≥ tolerance ≥ ε`), the table maps
`v ∈ [0, lo1]` to the land value, `v ∈ [lo2, hi1]` to the marginal value,
`v ∈ [hi2, 1]` to the water value, and interpolates linearly on the ε-wide
intervals between them. -/
theorem lut_breakpoint_mapping (c : ShorelineConfig) (layers : List Nat)
    (hskip : c.skipThreshold = false)
    (h0 : 0 ≤ c.threshold - c.tolerance)
    (htol : fltEpsilon ≤ c.tolerance) :
    (∀ ch, initProcessingChain c layers false = Except.ok ch →
      Stage.bandLutFilter (lutEntries c) ∈ ch) ∧
    (∀ v, 0 ≤ v → v ≤ c.threshold - c.tolerance →
      lutEval (lutEntries c) v = (c.landValue : ℚ)) ∧
    (∀ v, c.threshold - c.tolerance + fltEpsilon ≤ v →
        v ≤ c.threshold + c.tolerance →
      lutEval (lutEntries c) v = (c.marginalValue : ℚ)) ∧
    (∀ v, c.threshold + c.tolerance + fltEpsilon ≤ v → v ≤ 1 →
      lutEval (lutEntries c) v = (c.waterValue : ℚ)) ∧
    (∀ v, c.threshold - c.tolerance < v →
        v < c.threshold - c.tolerance + fltEpsilon →
      lutEval (lutEntries c) v = (c.landValue : ℚ) +
        (v - (c.threshold - c.tolerance)) / fltEpsilon *
          ((c.marginalValue : ℚ) - (c.landValue : ℚ))) ∧
    (∀ v, c.threshold + c.tolerance < v →
        v < c.threshold + c.tolerance + fltEpsilon →
      lutEval (lutEntries c) v = (c.marginalValue : ℚ) +
        (v - (c.threshold + c.tolerance)) / fltEpsilon *
          ((c.waterValue : ℚ) - (c.marginalValue : ℚ))) := by
  have hε : (0 : ℚ) < fltEpsilon := by norm_num [fltEpsilon]
  have htpos : (0 : ℚ) < c.tolerance := lt_of_lt_of_le hε htol
  have hne : ¬ c.tolerance = 0 := ne_of_gt htpos
  have hentries : lutEntries c =
      [(0, (c.landValue : ℚ)),
       (c.threshold - c.tolerance, (c.landValue : ℚ)),
       (c.threshold - c.tolerance + fltEpsilon, (c.marginalValue : ℚ)),
       (c.threshold + c.tolerance, (c.marginalValue : ℚ)),
       (c.threshold + c.tolerance + fltEpsilon, (c.waterValue : ℚ)),
       (1, (c.waterValue : ℚ))] := by
    simp [lutEntries, hne]
  refine ⟨?_, ?_, ?_, ?_, ?_, ?_⟩
  · intro ch hok
    unfold initProcessingChain at hok
    by_cases hs : c.sensor = "ls8"
    · rw [if_neg (by simp), if_pos hs] at hok
      cases hinit : initLandsat8 c.algorithm layers with
      | error e => rw [hinit] at hok; cases hok
      | ok conn =>
          rw [hinit] at hok
          simp only [hskip, Bool.not_false, if_true] at hok
          injection hok with hok
          subst hok
          by_cases hsm : c.smoothing > 0 <;> by_cases hed : c.doEdgeDetect <;>
            simp [hsm, hed]
    · rw [if_neg (by simp), if_neg hs] at hok
      cases hok
  · intro v hv0 hv1
    rw [hentries]
    simp only [lutEval]
    split_ifs with h1
    · rfl
    · simp
  · intro v hv0 hv1
    rw [hentries]
    simp only [lutEval]
    split_ifs with h1 h2 h3
    · linarith
    · linarith
    · have hveq : v = c.threshold - c.tolerance + fltEpsilon :=
        le_antisymm h3 hv0
      subst hveq
      rw [show c.threshold - c.tolerance + fltEpsilon -
            (c.threshold - c.tolerance) = fltEpsilon from by ring,
          div_self hε.ne']
      ring
    · simp
  · intro v hv0 hv1
    rw [hentries]
    simp only [lutEval]
    split_ifs with h1 h2 h3 h4 h5
    · linarith
    · linarith
    · linarith
    · linarith
    · have hveq : v = c.threshold + c.tolerance + fltEpsilon :=
        le_antisymm h5 hv0
      subst hveq
      rw [show c.threshold + c.tolerance + fltEpsilon -
            (c.threshold + c.tolerance) = fltEpsilon from by ring,
          div_self hε.ne']
      ring
    · simp
  · intro v hv0 hv1
    rw [hentries]
    simp only [lutEval]
    split_ifs with h1 h2 h3 h4 h5 h6
    · linarith
    · linarith
    · rw [show c.threshold - c.tolerance + fltEpsilon -
            (c.threshold - c.tolerance) = fltEpsilon from by ring]
    all_goals linarith
  · intro v hv0 hv1
    rw [hentries]
    simp only [lutEval]
    split_ifs with h1 h2 h3 h4 h5 h6
    · linarith
    · linarith
    · linarith
    · linarith
    · rw [show c.threshold + c.tolerance + fltEpsilon -
            (c.threshold + c.tolerance) = fltEpsilon from by ring]
    all_goals linarith

/-- C1 witness: the default configuration satisfies the breakpoint ordering
and maps the index value 1/2 (below `lo1 = 0.54`) to its land value. -/
theorem lut_breakpoint_mapping_witness :
    lutEval (lutEntries defaultConfig) (1 / 2) = (defaultConfig.landValue : ℚ) :=
  (lut_breakpoint_mapping defaultConfig [] rfl
      (by norm_num [defaultConfig]) (by norm_num [defaultConfig, fltEpsilon])).2.1
    (1 / 2) (by norm_num) (by norm_num [defaultConfig])

/-- The default configuration with tolerance set to zero. -/
def tolZeroConfig : ShorelineConfig := { defaultConfig with tolerance := 0 }

/-- An index value inside the ε-wide interpolation sliver of the
tolerance-zero table that interpolates exactly to the marginal code 128:
`threshold + (128/255) * ε`. -/
def marginalHit : ℚ := 0.55 + (128 / 255) * fltEpsilon

/-- C7 counterexample: with tolerance 0 and the default color coding
(water 255, marginal 128, land 0), the index value
`threshold + (128/255) * ε` lies in the land-to-water interpolation sliver
and the lookup table maps it to exactly 128 — the configured marginal color
code does appear in the classified output. -/
theorem tolerance_zero_marginal_cex :
    lutEval (lutEntries tolZeroConfig) marginalHit
      = (tolZeroConfig.marginalValue : ℚ) := by
  norm_num [lutEval, lutEntries, tolZeroConfig, defaultConfig, marginalHit,
    fltEpsilon]

/-- C7 amended: with tolerance 0 the lookup table collapses to land on
`[0, lo1]`, a land-to-water interpolation on `(lo1, lo2)` and water on
`[lo2, 1]` (with `lo1 = threshold`, `lo2 = threshold + ε`), and no table
entry carries the marginal code — but values interpolated on the ε-wide
sliver can still coincide numerically with the marginal color code. -/
theorem lut_tolerance_zero_collapse (c : ShorelineConfig)
    (ht : c.tolerance = 0) (h0 : 0 ≤ c.threshold) :
    (∀ p ∈ lutEntries c,
      p.2 = (c.landValue : ℚ) ∨ p.2 = (c.waterValue : ℚ)) ∧
    (∀ v, 0 ≤ v → v ≤ c.threshold →
      lutEval (lutEntries c) v = (c.landValue : ℚ)) ∧
    (∀ v, c.threshold < v → v < c.threshold + fltEpsilon →
      lutEval (lutEntries c) v = (c.landValue : ℚ) +
        (v - c.threshold) / fltEpsilon *
          ((c.waterValue : ℚ) - (c.landValue : ℚ))) ∧
    (∀ v, c.threshold + fltEpsilon ≤ v → v ≤ 1 →
      lutEval (lutEntries c) v = (c.waterValue : ℚ)) := by
  have hε : (0 : ℚ) < fltEpsilon := by norm_num [fltEpsilon]
  have hentries : lutEntries c =
      [(0, (c.landValue : ℚ)), (c.threshold, (c.landValue : ℚ)),
       (c.threshold + fltEpsilon, (c.waterValue : ℚ)),
       (1, (c.waterValue : ℚ))] := by
    simp [lutEntries, ht]
  refine ⟨?_, ?_, ?_, ?_⟩
  · intro p hp
    rw [hentries] at hp
    simp only [List.mem_cons, List.not_mem_nil, or_false] at hp
    rcases hp with rfl | rfl | rfl | rfl
    · exact Or.inl rfl
    · exact Or.inl rfl
    · exact Or.inr rfl
    · exact Or.inr rfl
  · intro v hv0 hv1
    rw [hentries]
    simp only [lutEval]
    split_ifs with h1
    · rfl
    · simp
  · intro v hv0 hv1
    rw [hentries]
    simp only [lutEval]
    split_ifs with h1 h2 h3
    · linarith
    · linarith
    · rw [show c.threshold + fltEpsilon - c.threshold = fltEpsilon from by ring]
    all_goals linarith
  · intro v hv0 hv1
    rw [hentries]
    simp only [lutEval]
    split_ifs with h1 h2 h3
    · linarith
    · linarith
    · have hveq : v = c.threshold + fltEpsilon := le_antisymm h3 hv0
      subst hveq
      rw [show c.threshold + fltEpsilon - c.threshold = fltEpsilon from by ring,
          div_self hε.ne']
      ring
    · simp

/-- C7 witness: the amended statement at the concrete tolerance-zero
configuration, mapping the index value 0.6 (above `threshold + ε`) to the
water value. -/
theorem lut_tolerance_zero_collapse_witness :
    lutEval (lutEntries tolZeroConfig) (3 / 5)
      = (tolZeroConfig.waterValue : ℚ) :=
  (lut_tolerance_zero_collapse tolZeroConfig rfl
      (by norm_num [tolZeroConfig, defaultConfig])).2.2.2 (3 / 5)
    (by norm_num [tolZeroConfig, defaultConfig, fltEpsilon])
    (by norm_num)

end Shoreline
